import Mathlib

/-!
Shallow embedding of the request-admission pipeline of the fastify-api
repository, centred on `apps/server/src/middleware/rate-limit.ts`, together
with the route-matching snippet of `docs/tasks/05.md`.

Modelling conventions:
* `Date.now()` timestamps and durations are natural numbers of milliseconds.
* The module-level `rateLimitStore : Map<string, RateLimitData>` is modelled
  extensionally as a function `String → Option RateLimitData`; `Map.get`,
  `Map.set`, `Map.delete` and the forEach-collect-then-delete sweep are the
  corresponding pointwise operations.  All middleware instances produced by
  `createRateLimitMiddleware` close over this one module-level map, which the
  model renders by threading a single `Store` value through every instance.
* Header values are kept as the numbers the source stringifies:
  `max.toString()`, `toISOString()` and `Math.ceil(resetTime / 1000)` are
  injective renderings of the modelled numbers, so a header field holds the
  number the rendering is applied to (`rateLimitReset` holds the epoch-ms
  value that `new Date(...).toISOString()` renders).
* The reply object is modelled by the set of headers written plus, for a
  terminal 429, the JSON body; the downstream handler is modelled by the
  status code it would produce, consulted only where the source consults
  `reply.statusCode`.
-/

namespace FastifyApi

/-- Mirror of `RateLimitData` (rate-limit.ts lines 15-18): a per-key counter
together with the epoch-ms time at which the window resets. -/
structure RateLimitData where
  count : Nat
  resetTime : Nat

deriving instance Repr, DecidableEq for RateLimitData

/-- Mirror of `RateLimitOptions` after the destructuring defaults of
`createRateLimitMiddleware` (rate-limit.ts lines 26-36); `keyGenerator` is
factored out: the model takes the generated key directly. -/
structure RateLimitOptions where
  windowMs : Nat := 15 * 60 * 1000
  max : Nat := 100
  message : String := "Too many requests, please try again later"
  standardHeaders : Bool := true
  legacyHeaders : Bool := false
  skipSuccessfulRequests : Bool := false
  skipFailedRequests : Bool := false

deriving instance Repr, DecidableEq for RateLimitOptions

/-- The module-level `rateLimitStore` map (rate-limit.ts line 20), viewed
extensionally. -/
def Store : Type := String → Option RateLimitData

/-- The map with no records. -/
def Store.empty : Store := fun _ => none

/-- `rateLimitStore.get(key)`. -/
def Store.get (s : Store) (k : String) : Option RateLimitData := s k

/-- `rateLimitStore.set(key, data)`. -/
def Store.set (s : Store) (k : String) (d : RateLimitData) : Store :=
  fun k' => if k' = k then some d else s k'

/-- The expired-record sweep at the top of every middleware invocation
(rate-limit.ts lines 45-52): collect every key whose `resetTime <= now`,
then delete them all.  Pointwise this removes exactly the expired records. -/
def Store.sweep (now : Nat) (s : Store) : Store :=
  fun k =>
    match s k with
    | none => none
    | some d => if d.resetTime ≤ now then none else some d

/-- The headers the middleware may write on the reply.  Numeric fields hold
the value the source stringifies; `rateLimitReset` holds the epoch-ms window
end rendered by `toISOString()`, `xRateLimitReset` holds
`Math.ceil(resetTime / 1000)` epoch seconds. -/
structure ReplyHeaders where
  rateLimitLimit : Option Nat := none
  rateLimitRemaining : Option Int := none
  rateLimitReset : Option Nat := none
  xRateLimitLimit : Option Nat := none
  xRateLimitRemaining : Option Int := none
  xRateLimitReset : Option Nat := none
  retryAfter : Option Nat := none

deriving instance Repr, DecidableEq for ReplyHeaders

/-- The JSON body of the terminal 429 response (rate-limit.ts lines 83-87). -/
structure TooManyRequestsBody where
  error : String
  message : String
  retryAfter : Nat

deriving instance Repr, DecidableEq for TooManyRequestsBody

/-- Headers written on the rejection path (rate-limit.ts lines 68-81):
standard block, legacy block, then `Retry-After` unconditionally. -/
def rejectHeaders (opts : RateLimitOptions) (data : RateLimitData)
    (timeUntilReset : Nat) : ReplyHeaders :=
  let h0 : ReplyHeaders := {}
  let h1 := if opts.standardHeaders then
      { h0 with rateLimitLimit := some opts.max, rateLimitRemaining := some 0,
                rateLimitReset := some data.resetTime }
    else h0
  let h2 := if opts.legacyHeaders then
      { h1 with xRateLimitLimit := some opts.max, xRateLimitRemaining := some 0,
                xRateLimitReset := some ((data.resetTime + 999) / 1000) }
    else h1
  { h2 with retryAfter := some timeUntilReset }

/-- Headers written on the admission path (rate-limit.ts lines 109-120):
`RateLimit-Remaining` is the JS number `max - data.count - 1`, computed in
`Int` as the source computes it before any increment happens. -/
def admitHeaders (opts : RateLimitOptions) (data : RateLimitData) : ReplyHeaders :=
  let remaining : Int := (opts.max : Int) - (data.count : Int) - 1
  let h0 : ReplyHeaders := {}
  let h1 := if opts.standardHeaders then
      { h0 with rateLimitLimit := some opts.max, rateLimitRemaining := some remaining,
                rateLimitReset := some data.resetTime }
    else h0
  if opts.legacyHeaders then
      { h1 with xRateLimitLimit := some opts.max, xRateLimitRemaining := some remaining,
                xRateLimitReset := some ((data.resetTime + 999) / 1000) }
    else h1

/-- Outcome of one synchronous middleware invocation: either the request is
forwarded (`admitted`, carrying the headers written and the record object the
finish hook captured), or a terminal 429 is sent (`rejected`). -/
inductive ArrivalOutcome where
  | admitted (headers : ReplyHeaders) (captured : RateLimitData)
  | rejected (status : Nat) (headers : ReplyHeaders) (body : TooManyRequestsBody)

deriving instance Repr, DecidableEq for ArrivalOutcome

/-- The headers written by either outcome. -/
def ArrivalOutcome.headers : ArrivalOutcome → ReplyHeaders
  | .admitted h _ => h
  | .rejected _ h _ => h

/-- Whether the outcome forwards the request to the next stage. -/
def ArrivalOutcome.isAdmitted : ArrivalOutcome → Bool
  | .admitted _ _ => true
  | .rejected _ _ _ => false

/-- The synchronous body of `rateLimitMiddleware` (rate-limit.ts lines
38-121): sweep expired records, get-or-create the record for `key`, then
either send the terminal 429 (when `data.count >= max`) or write the
admission headers and forward.  `timeUntilReset` is
`Math.ceil((resetTime - now) / 1000)`; on this path `resetTime ≥ now`, so the
truncated `Nat` subtraction agrees with JS arithmetic. -/
def rateLimitArrive (opts : RateLimitOptions) (key : String) (now : Nat)
    (store : Store) : ArrivalOutcome × Store :=
  let store1 := Store.sweep now store
  let dataStore :=
    match store1.get key with
    | none =>
        let fresh : RateLimitData := ⟨0, now + opts.windowMs⟩
        (fresh, store1.set key fresh)
    | some d =>
        if d.resetTime ≤ now then
          let fresh : RateLimitData := ⟨0, now + opts.windowMs⟩
          (fresh, store1.set key fresh)
        else (d, store1)
  let data := dataStore.1
  let store2 := dataStore.2
  if opts.max ≤ data.count then
    let timeUntilReset := (data.resetTime - now + 999) / 1000
    (.rejected 429 (rejectHeaders opts data timeUntilReset)
      ⟨"Too Many Requests", opts.message, timeUntilReset⟩, store2)
  else
    (.admitted (admitHeaders opts data) data, store2)

/-- The `shouldCount` closure (rate-limit.ts lines 91-99), reading the final
`reply.statusCode`. -/
def shouldCount (opts : RateLimitOptions) (statusCode : Nat) : Bool :=
  if opts.skipSuccessfulRequests = true ∧ 200 ≤ statusCode ∧ statusCode < 300 then
    false
  else if opts.skipFailedRequests = true ∧ 400 ≤ statusCode then
    false
  else
    true

/-- The `reply.raw.on('finish', ...)` hook (rate-limit.ts lines 102-107):
when the response has been produced, increment the captured record and write
it back under `key`.  `captured` is the value, at finish time, of the record
object the arrival captured by reference; the net store effect of
`data.count++; rateLimitStore.set(key, data)` is that `key` maps to the
captured record with `count` one higher. -/
def rateLimitFinish (opts : RateLimitOptions) (key : String)
    (captured : RateLimitData) (statusCode : Nat) (store : Store) : Store :=
  if shouldCount opts statusCode then
    Store.set store key ⟨captured.count + 1, captured.resetTime⟩
  else store

/-- Result of processing one whole request through the rate-limit stage:
either the request was forwarded and the downstream handler ran (`ok`), or
the stage sent the terminal response and the pipeline stopped (`limited`). -/
inductive ReqResult where
  | ok (headers : ReplyHeaders)
  | limited (status : Nat) (headers : ReplyHeaders) (body : TooManyRequestsBody)

deriving instance Repr, DecidableEq for ReqResult

/-- One request processed end to end with no other request interleaved:
arrival, then — only when admitted — the downstream handler produces
`handlerStatus` and the finish hook fires.  On rejection the source returns
from the `preHandler` hook with the reply already sent, so no later stage
runs and `handlerStatus` is never consulted. -/
def processRequest (opts : RateLimitOptions) (key : String) (now : Nat)
    (handlerStatus : Nat) (store : Store) : ReqResult × Store :=
  match rateLimitArrive opts key now store with
  | (.admitted h captured, s1) =>
      (.ok h, rateLimitFinish opts key captured handlerStatus s1)
  | (.rejected st h b, s1) => (.limited st h b, s1)

/-- A sequence of requests for one key, each response finishing before the
next request arrives; events are `(now, handlerStatus)` pairs. -/
def runSeq (opts : RateLimitOptions) (key : String) :
    List (Nat × Nat) → Store → List ReqResult × Store
  | [], s => ([], s)
  | e :: rest, s =>
      let r1 := processRequest opts key e.1 e.2 s
      let r2 := runSeq opts key rest r1.2
      (r1.1 :: r2.1, r2.2)

/-- Options of the default preset `rateLimitMiddleware`
(rate-limit.ts line 127). -/
def defaultRateLimitOptions : RateLimitOptions := {}

/-- Options of `strictRateLimitMiddleware` (rate-limit.ts lines 132-136). -/
def strictRateLimitOptions : RateLimitOptions :=
  { windowMs := 5 * 60 * 1000
    max := 10
    message := "Too many requests to this sensitive endpoint" }

/-- Options of `authRateLimitMiddleware` (rate-limit.ts lines 141-146). -/
def authRateLimitOptions : RateLimitOptions :=
  { windowMs := 15 * 60 * 1000
    max := 5
    message := "Too many authentication attempts"
    skipSuccessfulRequests := true }

/-- Mirror of `MiddlewareOptions` (docs/tasks/05.md, base middleware
snippet); `none` models an absent (`undefined`) field. -/
structure MiddlewareOptions where
  enabled : Option Bool := none
  skipRoutes : Option (List String) := none
  onlyRoutes : Option (List String) := none

deriving instance Repr, DecidableEq for MiddlewareOptions

/-- `BaseMiddleware.shouldSkip` (docs/tasks/05.md): `route` is
`request.routerPath`, the registered route template.  JS truthiness: an
absent list short-circuits its guard to false, a present list (even empty)
enters it; `!this.options.enabled` is true when `enabled` is absent or
false. -/
def shouldSkip (o : MiddlewareOptions) (route : String) : Bool :=
  if o.onlyRoutes.elim false (fun only => !(only.contains route)) then true
  else if o.skipRoutes.elim false (fun skips => skips.contains route) then true
  else !(o.enabled.getD false)

/-- The spec's Route Matcher contract `applies(stageScope, requestRoute)`,
realised by the source as the negation of `shouldSkip`. -/
def applies (o : MiddlewareOptions) (route : String) : Bool :=
  !(shouldSkip o route)

/-- JS `s.endsWith(t)`, on the character sequences of the strings. -/
def jsEndsWith (s t : String) : Bool := List.isSuffixOf t.data s.data

/-- JS `s.startsWith(t)`, on the character sequences of the strings. -/
def jsStartsWith (s t : String) : Bool := List.isPrefixOf t.data s.data

/-- JS `s.slice(0, -n)`: the string without its last `n` characters. -/
def jsDropRight (s : String) (n : Nat) : String :=
  ⟨s.data.take (s.data.length - n)⟩

/-- The JWT-registration skip hook (docs/tasks/05.md, auth registration
snippet): an entry ending in the two characters slash-star matches when the
raw `request.url` starts with the entry minus those two characters
(`route.slice(0, -2)`), otherwise the entry must equal the url exactly. -/
def jwtSkipMatch (skipRoutes : List String) (url : String) : Bool :=
  skipRoutes.any fun route =>
    if jsEndsWith route "/*" then jsStartsWith url (jsDropRight route 2)
    else url == route

/-! ### Basic lemmas about the store operations -/

theorem Store.get_set_self (s : Store) (k : String) (d : RateLimitData) :
    (s.set k d).get k = some d := by
  simp [Store.set, Store.get]

theorem Store.get_set_ne (s : Store) (k : String) (d : RateLimitData)
    (k' : String) (h : k' ≠ k) : (s.set k d).get k' = s.get k' := by
  simp [Store.set, Store.get, h]

theorem Store.sweep_get_live (now : Nat) (s : Store) (k : String)
    (d : RateLimitData) (hd : s.get k = some d) (h : now < d.resetTime) :
    (Store.sweep now s).get k = some d := by
  simp only [Store.sweep, Store.get] at hd ⊢
  rw [hd]
  exact if_neg (by omega)

theorem Store.sweep_get_none (now : Nat) (s : Store) (k : String)
    (h : s.get k = none) : (Store.sweep now s).get k = none := by
  simp only [Store.sweep, Store.get] at h ⊢
  rw [h]

theorem Store.sweep_get_expired (now : Nat) (s : Store) (k : String)
    (d : RateLimitData) (hd : s.get k = some d) (h : d.resetTime ≤ now) :
    (Store.sweep now s).get k = none := by
  simp only [Store.sweep, Store.get] at hd ⊢
  rw [hd]
  exact if_pos h

theorem Store.sweep_get_some (now : Nat) (s : Store) (k : String)
    (d : RateLimitData) (h : (Store.sweep now s).get k = some d) :
    s.get k = some d ∧ now < d.resetTime := by
  simp only [Store.sweep, Store.get] at h ⊢
  cases hs : s k with
  | none => rw [hs] at h; simp at h
  | some d' =>
      rw [hs] at h
      replace h : (if d'.resetTime ≤ now then none else some d') = some d := h
      by_cases hexp : d'.resetTime ≤ now
      · rw [if_pos hexp] at h; simp at h
      · rw [if_neg hexp] at h
        injection h with h
        subst h
        exact ⟨rfl, by omega⟩

/-! ### Characterisations of one middleware invocation -/

/-- A live record below the limit: the request is admitted, the store is only
swept, and the finish hook captures the live record. -/
theorem rateLimitArrive_live_admitted (opts : RateLimitOptions) (key : String)
    (now : Nat) (s : Store) (d : RateLimitData) (hd : s.get key = some d)
    (hlive : now < d.resetTime) (hc : d.count < opts.max) :
    rateLimitArrive opts key now s =
      (.admitted (admitHeaders opts d) d, Store.sweep now s) := by
  simp only [rateLimitArrive, Store.sweep_get_live now s key d hd hlive,
    if_neg (show ¬ d.resetTime ≤ now from by omega),
    if_neg (show ¬ opts.max ≤ d.count from by omega)]

/-- A live record at or above the limit: terminal 429, store only swept. -/
theorem rateLimitArrive_live_reject (opts : RateLimitOptions) (key : String)
    (now : Nat) (s : Store) (d : RateLimitData) (hd : s.get key = some d)
    (hlive : now < d.resetTime) (hc : opts.max ≤ d.count) :
    rateLimitArrive opts key now s =
      (.rejected 429 (rejectHeaders opts d ((d.resetTime - now + 999) / 1000))
          ⟨"Too Many Requests", opts.message, (d.resetTime - now + 999) / 1000⟩,
        Store.sweep now s) := by
  simp only [rateLimitArrive, Store.sweep_get_live now s key d hd hlive,
    if_neg (show ¬ d.resetTime ≤ now from by omega), if_pos hc]

/-- No live record and a positive limit: a fresh record with `count = 0` is
created and the request is admitted. -/
theorem rateLimitArrive_fresh_admitted (opts : RateLimitOptions) (key : String)
    (now : Nat) (s : Store) (h0 : (Store.sweep now s).get key = none)
    (hm : 0 < opts.max) :
    rateLimitArrive opts key now s =
      (.admitted (admitHeaders opts ⟨0, now + opts.windowMs⟩)
          ⟨0, now + opts.windowMs⟩,
        (Store.sweep now s).set key ⟨0, now + opts.windowMs⟩) := by
  simp only [rateLimitArrive, h0]
  rw [if_neg (by omega)]

/-- Records of keys other than the request's are only swept, never written,
by one invocation. -/
theorem rateLimitArrive_get_other (opts : RateLimitOptions) (key : String)
    (now : Nat) (s : Store) (k : String) (hk : k ≠ key) :
    ((rateLimitArrive opts key now s).2).get k = (Store.sweep now s).get k := by
  unfold rateLimitArrive
  cases h : (Store.sweep now s).get key <;> simp only [h] <;> split_ifs <;>
    simp [Store.get_set_ne _ _ _ _ hk]

/-- Every invocation leaves, under the request's key, a record whose window
has not yet ended, and decides the request by comparing that record's count
with the limit. -/
theorem rateLimitArrive_cases (opts : RateLimitOptions) (key : String)
    (now : Nat) (s : Store) :
    ∃ d : RateLimitData,
      ((rateLimitArrive opts key now s).2).get key = some d ∧
      now ≤ d.resetTime ∧
      (rateLimitArrive opts key now s).1 =
        (if opts.max ≤ d.count then
          .rejected 429 (rejectHeaders opts d ((d.resetTime - now + 999) / 1000))
            ⟨"Too Many Requests", opts.message, (d.resetTime - now + 999) / 1000⟩
        else .admitted (admitHeaders opts d) d) := by
  cases h : (Store.sweep now s).get key with
  | none =>
      refine ⟨⟨0, now + opts.windowMs⟩, ?_, Nat.le_add_right _ _, ?_⟩ <;>
        simp only [rateLimitArrive, h] <;> split_ifs <;>
        simp [Store.get_set_self]
  | some d =>
      obtain ⟨hd, hlive⟩ := Store.sweep_get_some now s key d h
      refine ⟨d, ?_, Nat.le_of_lt hlive, ?_⟩ <;>
        simp only [rateLimitArrive, Store.sweep_get_live now s key d hd hlive,
          if_neg (show ¬ d.resetTime ≤ now from by omega)] <;>
        split_ifs <;> simp [h]

/-! ### Header-field lemmas -/

theorem rejectHeaders_retryAfter (opts : RateLimitOptions) (d : RateLimitData)
    (t : Nat) : (rejectHeaders opts d t).retryAfter = some t := rfl

theorem rejectHeaders_std (opts : RateLimitOptions) (d : RateLimitData)
    (t : Nat) (hstd : opts.standardHeaders = true) :
    (rejectHeaders opts d t).rateLimitLimit = some opts.max ∧
    (rejectHeaders opts d t).rateLimitRemaining = some 0 ∧
    (rejectHeaders opts d t).rateLimitReset = some d.resetTime := by
  simp only [rejectHeaders, hstd, if_true]
  split <;> exact ⟨rfl, rfl, rfl⟩

theorem admitHeaders_std (opts : RateLimitOptions) (d : RateLimitData)
    (hstd : opts.standardHeaders = true) :
    (admitHeaders opts d).rateLimitLimit = some opts.max ∧
    (admitHeaders opts d).rateLimitRemaining =
      some ((opts.max : Int) - (d.count : Int) - 1) ∧
    (admitHeaders opts d).rateLimitReset = some d.resetTime := by
  simp only [admitHeaders, hstd, if_true]
  split <;> exact ⟨rfl, rfl, rfl⟩

/-! ### Lemmas about counting at response finish -/

theorem shouldCount_of_flags (opts : RateLimitOptions)
    (h1 : opts.skipSuccessfulRequests = false)
    (h2 : opts.skipFailedRequests = false) (status : Nat) :
    shouldCount opts status = true := by
  simp [shouldCount, h1, h2]

theorem shouldCount_false_skipFailed (opts : RateLimitOptions) (status : Nat)
    (h : opts.skipFailedRequests = true) (hs : 400 ≤ status) :
    shouldCount opts status = false := by
  unfold shouldCount
  rw [if_neg (by rintro ⟨-, -, h3⟩; omega), if_pos ⟨h, hs⟩]

theorem shouldCount_false_skipSuccessful (opts : RateLimitOptions)
    (status : Nat) (h : opts.skipSuccessfulRequests = true)
    (hs1 : 200 ≤ status) (hs2 : status < 300) :
    shouldCount opts status = false := by
  unfold shouldCount
  rw [if_pos ⟨h, hs1, hs2⟩]

theorem rateLimitFinish_counted (opts : RateLimitOptions) (key : String)
    (captured : RateLimitData) (status : Nat) (s : Store)
    (h : shouldCount opts status = true) :
    rateLimitFinish opts key captured status s =
      s.set key ⟨captured.count + 1, captured.resetTime⟩ := by
  simp [rateLimitFinish, h]

theorem rateLimitFinish_skipped (opts : RateLimitOptions) (key : String)
    (captured : RateLimitData) (status : Nat) (s : Store)
    (h : shouldCount opts status = false) :
    rateLimitFinish opts key captured status s = s := by
  simp [rateLimitFinish, h]

/-! ### Step lemmas for a whole request -/

theorem processRequest_live (opts : RateLimitOptions) (key : String)
    (now status : Nat) (s : Store) (d : RateLimitData) (hd : s.get key = some d)
    (hlive : now < d.resetTime) (hc : d.count < opts.max) :
    processRequest opts key now status s =
      (.ok (admitHeaders opts d),
        rateLimitFinish opts key d status (Store.sweep now s)) := by
  simp only [processRequest, rateLimitArrive_live_admitted opts key now s d hd hlive hc]

theorem processRequest_live_counted (opts : RateLimitOptions) (key : String)
    (now status : Nat) (s : Store) (d : RateLimitData) (hd : s.get key = some d)
    (hlive : now < d.resetTime) (hc : d.count < opts.max)
    (hcount : shouldCount opts status = true) :
    processRequest opts key now status s =
      (.ok (admitHeaders opts d),
        (Store.sweep now s).set key ⟨d.count + 1, d.resetTime⟩) := by
  rw [processRequest_live opts key now status s d hd hlive hc,
    rateLimitFinish_counted opts key d status _ hcount]

theorem processRequest_live_skipped (opts : RateLimitOptions) (key : String)
    (now status : Nat) (s : Store) (d : RateLimitData) (hd : s.get key = some d)
    (hlive : now < d.resetTime) (hc : d.count < opts.max)
    (hcount : shouldCount opts status = false) :
    processRequest opts key now status s =
      (.ok (admitHeaders opts d), Store.sweep now s) := by
  rw [processRequest_live opts key now status s d hd hlive hc,
    rateLimitFinish_skipped opts key d status _ hcount]

theorem processRequest_fresh (opts : RateLimitOptions) (key : String)
    (now status : Nat) (s : Store) (h0 : (Store.sweep now s).get key = none)
    (hm : 0 < opts.max) :
    processRequest opts key now status s =
      (.ok (admitHeaders opts ⟨0, now + opts.windowMs⟩),
        rateLimitFinish opts key ⟨0, now + opts.windowMs⟩ status
          ((Store.sweep now s).set key ⟨0, now + opts.windowMs⟩)) := by
  simp only [processRequest, rateLimitArrive_fresh_admitted opts key now s h0 hm]

theorem processRequest_reject (opts : RateLimitOptions) (key : String)
    (now status : Nat) (s : Store) (d : RateLimitData) (hd : s.get key = some d)
    (hlive : now < d.resetTime) (hc : opts.max ≤ d.count) :
    processRequest opts key now status s =
      (.limited 429 (rejectHeaders opts d ((d.resetTime - now + 999) / 1000))
          ⟨"Too Many Requests", opts.message, (d.resetTime - now + 999) / 1000⟩,
        Store.sweep now s) := by
  simp only [processRequest, rateLimitArrive_live_reject opts key now s d hd hlive hc]

theorem runSeq_cons (opts : RateLimitOptions) (key : String) (e : Nat × Nat)
    (rest : List (Nat × Nat)) (s : Store) :
    runSeq opts key (e :: rest) s =
      ((processRequest opts key e.1 e.2 s).1 ::
          (runSeq opts key rest (processRequest opts key e.1 e.2 s).2).1,
        (runSeq opts key rest (processRequest opts key e.1 e.2 s).2).2) := rfl

theorem runSeq_nil (opts : RateLimitOptions) (key : String) (s : Store) :
    runSeq opts key [] s = ([], s) := rfl

theorem runSeq_append (opts : RateLimitOptions) (key : String)
    (l1 l2 : List (Nat × Nat)) (s : Store) :
    runSeq opts key (l1 ++ l2) s =
      ((runSeq opts key l1 s).1 ++
          (runSeq opts key l2 (runSeq opts key l1 s).2).1,
        (runSeq opts key l2 (runSeq opts key l1 s).2).2) := by
  induction l1 generalizing s with
  | nil => rfl
  | cons e rest ih => simp [List.cons_append, runSeq_cons, ih]

/-- A run of requests for a key holding a live record, every response
finishing (and counting) before the next arrival, all inside the window and
all within quota: every request is admitted, the i-th sees the count `c + i`,
and afterwards the record holds `c + n`. -/
theorem runSeq_counted (opts : RateLimitOptions) (key : String) :
    ∀ (events : List (Nat × Nat)) (c R : Nat) (s : Store),
      s.get key = some ⟨c, R⟩ →
      (∀ e ∈ events, e.1 < R ∧ shouldCount opts e.2 = true) →
      c + events.length ≤ opts.max →
      (runSeq opts key events s).1 =
        (List.range events.length).map
          (fun i => ReqResult.ok (admitHeaders opts ⟨c + i, R⟩)) ∧
      ((runSeq opts key events s).2).get key = some ⟨c + events.length, R⟩ := by
  intro events
  induction events with
  | nil =>
      intro c R s hs _ _
      exact ⟨rfl, by simpa using hs⟩
  | cons e rest ih =>
      intro c R s hs hev hle
      rw [List.length_cons] at hle
      obtain ⟨ht, hcount⟩ := hev e (List.mem_cons_self _ _)
      have hc : (⟨c, R⟩ : RateLimitData).count < opts.max := by
        simp only []
        omega
      have hstep := processRequest_live_counted opts key e.1 e.2 s ⟨c, R⟩ hs ht hc hcount
      have hs1 : ((Store.sweep e.1 s).set key ⟨c + 1, R⟩).get key = some ⟨c + 1, R⟩ :=
        Store.get_set_self _ _ _
      have ihr := ih (c + 1) R _ hs1
        (fun e' he' => hev e' (List.mem_cons_of_mem _ he')) (by omega)
      constructor
      · simp only [runSeq_cons, hstep, ihr.1, List.length_cons,
          List.range_succ_eq_map, List.map_cons, List.map_map, Nat.add_zero]
        congr 1
        apply List.map_congr_left
        intro i _
        have harith : c + 1 + i = c + (i + 1) := by omega
        simp [Function.comp, harith, Nat.succ_eq_add_one]
      · simp only [runSeq_cons, hstep, List.length_cons]
        rw [show c + (rest.length + 1) = c + 1 + rest.length from by omega]
        exact ihr.2

/-- A run of requests for a key holding a live record, where every response
status makes `shouldCount` false: every request is admitted with identical
headers and the record is left untouched. -/
theorem runSeq_skipped (opts : RateLimitOptions) (key : String) :
    ∀ (events : List (Nat × Nat)) (c R : Nat) (s : Store),
      s.get key = some ⟨c, R⟩ → c < opts.max →
      (∀ e ∈ events, e.1 < R ∧ shouldCount opts e.2 = false) →
      (∀ r ∈ (runSeq opts key events s).1,
        r = ReqResult.ok (admitHeaders opts ⟨c, R⟩)) ∧
      ((runSeq opts key events s).2).get key = some ⟨c, R⟩ := by
  intro events
  induction events with
  | nil =>
      intro c R s hs _ _
      refine ⟨?_, hs⟩
      intro r hr
      simp [runSeq] at hr
  | cons e rest ih =>
      intro c R s hs hc hev
      obtain ⟨ht, hcount⟩ := hev e (List.mem_cons_self _ _)
      have hcR : (⟨c, R⟩ : RateLimitData).count < opts.max := hc
      have hstep := processRequest_live_skipped opts key e.1 e.2 s ⟨c, R⟩ hs ht hcR hcount
      have hs1 : (Store.sweep e.1 s).get key = some ⟨c, R⟩ :=
        Store.sweep_get_live e.1 s key ⟨c, R⟩ hs ht
      have ihr := ih c R _ hs1 hc
        (fun e' he' => hev e' (List.mem_cons_of_mem _ he'))
      constructor
      · intro r hr
        simp only [runSeq_cons, hstep, List.mem_cons] at hr
        rcases hr with hr | hr
        · exact hr
        · exact ihr.1 r hr
      · simp only [runSeq_cons, hstep]
        exact ihr.2

/-! ## Claim theorems -/

/-- C1: for a fresh key under a policy with `maxRequests = m` (standard
headers on, skip flags off), issuing `m` sequential requests inside one
window — each response finishing before the next request arrives — admits
all `m`, the `i`-th (1-based) seeing `RateLimit-Remaining = m - i` (so 0 on
the `m`-th), and the `(m+1)`-th request of the same window is rejected with
status 429 and `Retry-After` at most `ceil(windowMs / 1000)` seconds. -/
theorem C1_sequential_requests_fill_window (opts : RateLimitOptions)
    (key : String) (t0 : Nat) (ts : List Nat) (tlast : Nat)
    (hstd : opts.standardHeaders = true)
    (hflag1 : opts.skipSuccessfulRequests = false)
    (hflag2 : opts.skipFailedRequests = false)
    (hlen : ts.length + 1 = opts.max)
    (hts : ∀ t ∈ ts, t < t0 + opts.windowMs)
    (hl0 : t0 ≤ tlast) (hl1 : tlast < t0 + opts.windowMs) :
    (runSeq opts key (((t0 :: ts) ++ [tlast]).map fun t => (t, 200)) Store.empty).1 =
      ((List.range opts.max).map fun i =>
        ReqResult.ok (admitHeaders opts ⟨i, t0 + opts.windowMs⟩))
      ++ [ReqResult.limited 429
            (rejectHeaders opts ⟨opts.max, t0 + opts.windowMs⟩
              ((t0 + opts.windowMs - tlast + 999) / 1000))
            ⟨"Too Many Requests", opts.message,
              (t0 + opts.windowMs - tlast + 999) / 1000⟩]
    ∧ (∀ i, i < opts.max →
        (admitHeaders opts ⟨i, t0 + opts.windowMs⟩).rateLimitRemaining
          = some ((opts.max : Int) - (i + 1)))
    ∧ (t0 + opts.windowMs - tlast + 999) / 1000 ≤ (opts.windowMs + 999) / 1000 := by
  have hm : 0 < opts.max := by omega
  have hcount : ∀ status, shouldCount opts status = true :=
    shouldCount_of_flags opts hflag1 hflag2
  have hempty : (Store.sweep t0 Store.empty).get key = none :=
    Store.sweep_get_none t0 Store.empty key rfl
  have h1 : processRequest opts key t0 200 Store.empty =
      (.ok (admitHeaders opts ⟨0, t0 + opts.windowMs⟩),
        ((Store.sweep t0 Store.empty).set key ⟨0, t0 + opts.windowMs⟩).set key
          ⟨1, t0 + opts.windowMs⟩) := by
    rw [processRequest_fresh opts key t0 200 Store.empty hempty hm,
      rateLimitFinish_counted _ _ _ _ _ (hcount 200)]
  have hs1 : (((Store.sweep t0 Store.empty).set key ⟨0, t0 + opts.windowMs⟩).set key
      ⟨1, t0 + opts.windowMs⟩).get key = some ⟨1, t0 + opts.windowMs⟩ :=
    Store.get_set_self _ _ _
  have hrest := runSeq_counted opts key (ts.map fun t => (t, 200)) 1
      (t0 + opts.windowMs) _ hs1
      (by
        intro e he
        simp only [List.mem_map] at he
        obtain ⟨t, ht', rfl⟩ := he
        exact ⟨hts t ht', hcount 200⟩)
      (by rw [List.length_map]; omega)
  have hs2 : ((runSeq opts key (ts.map fun t => (t, 200))
        (((Store.sweep t0 Store.empty).set key ⟨0, t0 + opts.windowMs⟩).set key
          ⟨1, t0 + opts.windowMs⟩)).2).get key
      = some ⟨opts.max, t0 + opts.windowMs⟩ := by
    rw [hrest.2, List.length_map,
      show 1 + ts.length = opts.max from by omega]
  have hlastreq := processRequest_reject opts key tlast 200 _
      ⟨opts.max, t0 + opts.windowMs⟩ hs2 hl1 (le_refl _)
  refine ⟨?_, ?_, ?_⟩
  · simp only [List.map_append, List.map_cons, List.map_nil, List.cons_append,
      List.nil_append, runSeq_cons, runSeq_append, runSeq_nil, h1, hrest.1,
      hrest.2, hlastreq, List.length_map]
    rw [← hlen, List.range_succ_eq_map, List.map_cons, List.map_map]
    simp only [List.append_nil, List.cons_append]
    congr 1
    congr 1
    apply List.map_congr_left
    intro i _
    simp [Function.comp, Nat.add_comm]
  · intro i hi
    rw [(admitHeaders_std opts ⟨i, t0 + opts.windowMs⟩ hstd).2.1]
    congr 1
    push_cast
    ring
  · apply Nat.div_le_div_right
    omega

/-- Witness for C1 at the spec's concrete scenario: policy
`{windowDurationMs 60000, maxRequests 3}`, key "1.2.3.4", requests at
0, 1, 2 ms all admitted with Remaining 2, 1, 0, and the request at 3 ms
rejected with 429 and Retry-After 60 ≤ 60. -/
theorem C1_sequential_requests_fill_window_witness :
    (({ windowMs := 60000, max := 3 } : RateLimitOptions).standardHeaders = true)
    ∧ (({ windowMs := 60000, max := 3 } : RateLimitOptions).skipSuccessfulRequests = false)
    ∧ (({ windowMs := 60000, max := 3 } : RateLimitOptions).skipFailedRequests = false)
    ∧ ([1, 2].length + 1 = ({ windowMs := 60000, max := 3 } : RateLimitOptions).max)
    ∧ (∀ t ∈ [1, 2], t < 0 + ({ windowMs := 60000, max := 3 } : RateLimitOptions).windowMs)
    ∧ ((0 : Nat) ≤ 3)
    ∧ ((3 : Nat) < 0 + ({ windowMs := 60000, max := 3 } : RateLimitOptions).windowMs)
    ∧ ((runSeq { windowMs := 60000, max := 3 } "1.2.3.4"
          (((0 :: [1, 2]) ++ [3]).map fun t => (t, 200)) Store.empty).1 =
        ((List.range ({ windowMs := 60000, max := 3 } : RateLimitOptions).max).map fun i =>
          ReqResult.ok (admitHeaders { windowMs := 60000, max := 3 } ⟨i, 0 + 60000⟩))
        ++ [ReqResult.limited 429
              (rejectHeaders { windowMs := 60000, max := 3 } ⟨3, 0 + 60000⟩
                ((0 + 60000 - 3 + 999) / 1000))
              ⟨"Too Many Requests",
                ({ windowMs := 60000, max := 3 } : RateLimitOptions).message,
                (0 + 60000 - 3 + 999) / 1000⟩]
      ∧ (∀ i, i < ({ windowMs := 60000, max := 3 } : RateLimitOptions).max →
          (admitHeaders { windowMs := 60000, max := 3 } ⟨i, 0 + 60000⟩).rateLimitRemaining
            = some ((3 : Int) - (i + 1)))
      ∧ (0 + 60000 - 3 + 999) / 1000 ≤ (60000 + 999) / 1000) :=
  ⟨rfl, rfl, rfl, by decide, by decide, by decide, by decide,
    C1_sequential_requests_fill_window { windowMs := 60000, max := 3 } "1.2.3.4"
      0 [1, 2] 3 rfl rfl rfl (by decide) (by decide) (by decide) (by decide)⟩

/-- C2 counterexample: on the first request of a window, at the moment the
request is forwarded to the downstream handler, the store holds a record
with count = 0 — not 1 as the claim states — because the source defers all
counting to the response-finish hook. -/
theorem C2_counterexample_count_zero_when_forwarded :
    (rateLimitArrive defaultRateLimitOptions "1.2.3.4" 0 Store.empty).1
      = .admitted (admitHeaders defaultRateLimitOptions ⟨0, 900000⟩) ⟨0, 900000⟩
    ∧ ((rateLimitArrive defaultRateLimitOptions "1.2.3.4" 0 Store.empty).2).get "1.2.3.4"
      = some ⟨0, 900000⟩
    ∧ ((rateLimitArrive defaultRateLimitOptions "1.2.3.4" 0 Store.empty).2).get "1.2.3.4"
      ≠ some ⟨1, 900000⟩ :=
  ⟨by decide, by decide, by decide⟩

/-- C2 amended: admission reads the counter without modifying it — while
the downstream handler runs, the stored count is still the pre-request
value — and the count rises only in the response-finish hook, and only when
the skip flags allow counting; skip-flag exemption works by not counting,
there is no compensating decrement. -/
theorem C2_amended_counting_deferred_to_finish (opts : RateLimitOptions)
    (key : String) (now status : Nat) (s : Store) (d : RateLimitData)
    (hd : s.get key = some d) (hlive : now < d.resetTime)
    (hc : d.count < opts.max) :
    (rateLimitArrive opts key now s).1 = .admitted (admitHeaders opts d) d
    ∧ ((rateLimitArrive opts key now s).2).get key = some d
    ∧ (rateLimitFinish opts key d status ((rateLimitArrive opts key now s).2)).get key
        = some ⟨if shouldCount opts status then d.count + 1 else d.count,
            d.resetTime⟩ := by
  have ha := rateLimitArrive_live_admitted opts key now s d hd hlive hc
  refine ⟨by rw [ha], ?_, ?_⟩
  · rw [ha]
    exact Store.sweep_get_live now s key d hd hlive
  · rw [ha]
    by_cases h : shouldCount opts status = true
    · rw [rateLimitFinish_counted _ _ _ _ _ h, if_pos h]
      exact Store.get_set_self _ _ _
    · have hF : shouldCount opts status = false := by
        rwa [Bool.not_eq_true] at h
      rw [rateLimitFinish_skipped _ _ _ _ _ hF, if_neg h]
      exact Store.sweep_get_live now s key d hd hlive

/-- Witness for C2's amended theorem: default options, a live record with
count 2, a handler status of 200 that is counted — the count is 2 while the
handler runs and becomes 3 only at finish. -/
theorem C2_amended_counting_deferred_to_finish_witness :
    ((Store.empty.set "1.2.3.4" ⟨2, 10⟩).get "1.2.3.4" = some ⟨2, 10⟩)
    ∧ ((5 : Nat) < (⟨2, 10⟩ : RateLimitData).resetTime)
    ∧ ((⟨2, 10⟩ : RateLimitData).count < defaultRateLimitOptions.max)
    ∧ ((rateLimitArrive defaultRateLimitOptions "1.2.3.4" 5
          (Store.empty.set "1.2.3.4" ⟨2, 10⟩)).1
        = .admitted (admitHeaders defaultRateLimitOptions ⟨2, 10⟩) ⟨2, 10⟩
      ∧ ((rateLimitArrive defaultRateLimitOptions "1.2.3.4" 5
            (Store.empty.set "1.2.3.4" ⟨2, 10⟩)).2).get "1.2.3.4" = some ⟨2, 10⟩
      ∧ (rateLimitFinish defaultRateLimitOptions "1.2.3.4" ⟨2, 10⟩ 200
            ((rateLimitArrive defaultRateLimitOptions "1.2.3.4" 5
              (Store.empty.set "1.2.3.4" ⟨2, 10⟩)).2)).get "1.2.3.4"
          = some ⟨if shouldCount defaultRateLimitOptions 200 then
              (⟨2, 10⟩ : RateLimitData).count + 1
            else (⟨2, 10⟩ : RateLimitData).count, (⟨2, 10⟩ : RateLimitData).resetTime⟩) :=
  ⟨by decide, by decide, by decide,
    C2_amended_counting_deferred_to_finish defaultRateLimitOptions "1.2.3.4" 5 200
      (Store.empty.set "1.2.3.4" ⟨2, 10⟩) ⟨2, 10⟩ (by decide) (by decide) (by decide)⟩

/-- C3: whenever the stage rejects a request, the response has status 429, a
Retry-After header equal to the body's retryAfter, the body is exactly
`{error: "Too Many Requests", message: policy.message, retryAfter: t}` with
`t = ceil(msUntilReset / 1000)` for the live record's window end, and no
later stage executes: the request's end-to-end result is the terminal 429
for every conceivable downstream handler status, with no finish-hook count. -/
theorem C3_rejection_terminal_shape (opts : RateLimitOptions) (key : String)
    (now : Nat) (s : Store) (st : Nat) (hd : ReplyHeaders)
    (b : TooManyRequestsBody)
    (hrej : (rateLimitArrive opts key now s).1 = .rejected st hd b) :
    st = 429
    ∧ hd.retryAfter = some b.retryAfter
    ∧ b.error = "Too Many Requests"
    ∧ b.message = opts.message
    ∧ (∃ d, ((rateLimitArrive opts key now s).2).get key = some d
        ∧ now ≤ d.resetTime
        ∧ b.retryAfter = (d.resetTime - now + 999) / 1000)
    ∧ (∀ status, processRequest opts key now status s
        = (.limited st hd b, (rateLimitArrive opts key now s).2)) := by
  obtain ⟨d, hdk, hres, hout⟩ := rateLimitArrive_cases opts key now s
  have hpair : rateLimitArrive opts key now s
      = (ArrivalOutcome.rejected st hd b, (rateLimitArrive opts key now s).2) := by
    rw [← hrej]
  by_cases hc : opts.max ≤ d.count
  · rw [if_pos hc] at hout
    have heq := hrej.symm.trans hout
    injection heq with h1 h2 h3
    subst h1
    subst h2
    subst h3
    refine ⟨rfl, ?_, rfl, rfl, ⟨d, hdk, hres, rfl⟩, ?_⟩
    · rw [rejectHeaders_retryAfter]
    · intro status
      unfold processRequest
      rw [hpair]
  · rw [if_neg hc] at hout
    exact absurd (hrej.symm.trans hout) (by simp)

/-- Witness for C3: a record already at the limit under max = 1 — the
arrival rejects with the exact 429 shape. -/
theorem C3_rejection_terminal_shape_witness :
    ((rateLimitArrive { max := 1 } "1.2.3.4" 0
        (Store.empty.set "1.2.3.4" ⟨1, 1000⟩)).1
      = .rejected 429 (rejectHeaders { max := 1 } ⟨1, 1000⟩ 1)
          ⟨"Too Many Requests",
            ({ max := 1 } : RateLimitOptions).message, 1⟩)
    ∧ ((429 : Nat) = 429
      ∧ (rejectHeaders { max := 1 } ⟨1, 1000⟩ 1).retryAfter
          = some (⟨"Too Many Requests",
              ({ max := 1 } : RateLimitOptions).message, 1⟩ :
                TooManyRequestsBody).retryAfter
      ∧ (⟨"Too Many Requests", ({ max := 1 } : RateLimitOptions).message, 1⟩ :
            TooManyRequestsBody).error = "Too Many Requests"
      ∧ (⟨"Too Many Requests", ({ max := 1 } : RateLimitOptions).message, 1⟩ :
            TooManyRequestsBody).message = ({ max := 1 } : RateLimitOptions).message
      ∧ (∃ d, ((rateLimitArrive { max := 1 } "1.2.3.4" 0
            (Store.empty.set "1.2.3.4" ⟨1, 1000⟩)).2).get "1.2.3.4" = some d
          ∧ 0 ≤ d.resetTime
          ∧ (⟨"Too Many Requests", ({ max := 1 } : RateLimitOptions).message, 1⟩ :
              TooManyRequestsBody).retryAfter = (d.resetTime - 0 + 999) / 1000)
      ∧ (∀ status, processRequest { max := 1 } "1.2.3.4" 0 status
            (Store.empty.set "1.2.3.4" ⟨1, 1000⟩)
          = (.limited 429 (rejectHeaders { max := 1 } ⟨1, 1000⟩ 1)
              ⟨"Too Many Requests", ({ max := 1 } : RateLimitOptions).message, 1⟩,
            (rateLimitArrive { max := 1 } "1.2.3.4" 0
              (Store.empty.set "1.2.3.4" ⟨1, 1000⟩)).2))) :=
  ⟨by decide,
    C3_rejection_terminal_shape { max := 1 } "1.2.3.4" 0
      (Store.empty.set "1.2.3.4" ⟨1, 1000⟩) 429
      (rejectHeaders { max := 1 } ⟨1, 1000⟩ 1)
      ⟨"Too Many Requests", ({ max := 1 } : RateLimitOptions).message, 1⟩
      (by decide)⟩

/-- C4: on every request the stage processes (admitted or rejected), with
standard headers enabled, it sets RateLimit-Limit = policy max,
RateLimit-Remaining = max(0, policy max - totalHits) and RateLimit-Reset =
the window end of the live record (the epoch-ms value rendered as ISO-8601),
where totalHits = count + 1 counts the current request against the record's
stored pre-request count. -/
theorem C4_standard_headers_on_every_request (opts : RateLimitOptions)
    (key : String) (now : Nat) (s : Store)
    (hstd : opts.standardHeaders = true) :
    ∃ d : RateLimitData,
      ((rateLimitArrive opts key now s).2).get key = some d
      ∧ ((rateLimitArrive opts key now s).1).headers.rateLimitLimit = some opts.max
      ∧ ((rateLimitArrive opts key now s).1).headers.rateLimitRemaining
          = some (max (0 : Int) ((opts.max : Int) - ((d.count : Int) + 1)))
      ∧ ((rateLimitArrive opts key now s).1).headers.rateLimitReset
          = some d.resetTime := by
  obtain ⟨d, hdk, hres, hout⟩ := rateLimitArrive_cases opts key now s
  refine ⟨d, hdk, ?_, ?_, ?_⟩ <;> rw [hout] <;> by_cases hc : opts.max ≤ d.count
  · rw [if_pos hc]
    exact (rejectHeaders_std opts d _ hstd).1
  · rw [if_neg hc]
    exact (admitHeaders_std opts d hstd).1
  · rw [if_pos hc]
    simp only [ArrivalOutcome.headers]
    rw [(rejectHeaders_std opts d _ hstd).2.1]
    have hle : (opts.max : Int) - ((d.count : Int) + 1) ≤ 0 := by omega
    rw [max_eq_left hle]
  · rw [if_neg hc]
    simp only [ArrivalOutcome.headers]
    rw [(admitHeaders_std opts d hstd).2.1]
    have hge : (0 : Int) ≤ (opts.max : Int) - ((d.count : Int) + 1) := by omega
    rw [max_eq_right hge]
    congr 1
    ring
  · rw [if_pos hc]
    exact (rejectHeaders_std opts d _ hstd).2.2
  · rw [if_neg hc]
    exact (admitHeaders_std opts d hstd).2.2

/-- Witness for C4: default options on an empty store — the fresh record has
count 0, Limit 100, Remaining max(0, 100 - 1) = 99, Reset = the window
end. -/
theorem C4_standard_headers_on_every_request_witness :
    (defaultRateLimitOptions.standardHeaders = true)
    ∧ (∃ d : RateLimitData,
        ((rateLimitArrive defaultRateLimitOptions "1.2.3.4" 0 Store.empty).2).get
            "1.2.3.4" = some d
        ∧ ((rateLimitArrive defaultRateLimitOptions "1.2.3.4" 0
              Store.empty).1).headers.rateLimitLimit
            = some defaultRateLimitOptions.max
        ∧ ((rateLimitArrive defaultRateLimitOptions "1.2.3.4" 0
              Store.empty).1).headers.rateLimitRemaining
            = some (max (0 : Int)
                ((defaultRateLimitOptions.max : Int) - ((d.count : Int) + 1)))
        ∧ ((rateLimitArrive defaultRateLimitOptions "1.2.3.4" 0
              Store.empty).1).headers.rateLimitReset = some d.resetTime) :=
  ⟨rfl, C4_standard_headers_on_every_request defaultRateLimitOptions "1.2.3.4" 0
    Store.empty rfl⟩

/-- C5: once a key's window has fully elapsed (`resetTime ≤ now`), the next
request for that key is admitted exactly as if no history existed: the prior
count (however large) is discarded, the record restarts at count 0 with a
new window end `now + windowMs`, and RateLimit-Remaining shows
`maxRequests - 1`. -/
theorem C5_expired_window_resets_history (opts : RateLimitOptions)
    (key : String) (now : Nat) (s : Store) (c R : Nat)
    (hstd : opts.standardHeaders = true)
    (hs : s.get key = some ⟨c, R⟩) (hexp : R ≤ now) (hm : 0 < opts.max) :
    (rateLimitArrive opts key now s).1
      = .admitted (admitHeaders opts ⟨0, now + opts.windowMs⟩)
          ⟨0, now + opts.windowMs⟩
    ∧ (admitHeaders opts ⟨0, now + opts.windowMs⟩).rateLimitRemaining
      = some ((opts.max : Int) - 1)
    ∧ ((rateLimitArrive opts key now s).2).get key
      = some ⟨0, now + opts.windowMs⟩ := by
  have h0 : (Store.sweep now s).get key = none :=
    Store.sweep_get_expired now s key ⟨c, R⟩ hs hexp
  have ha := rateLimitArrive_fresh_admitted opts key now s h0 hm
  refine ⟨by rw [ha], ?_, ?_⟩
  · rw [(admitHeaders_std opts ⟨0, now + opts.windowMs⟩ hstd).2.1]
    norm_num
  · rw [ha]
    exact Store.get_set_self _ _ _

/-- Witness for C5 at the spec's scenario: `{windowDurationMs 60000,
maxRequests 3}`, record at count 3 with window end 60000, next request at
61000 ms — admitted with Remaining 2 and a fresh window. -/
theorem C5_expired_window_resets_history_witness :
    (({ windowMs := 60000, max := 3 } : RateLimitOptions).standardHeaders = true)
    ∧ ((Store.empty.set "1.2.3.4" ⟨3, 60000⟩).get "1.2.3.4" = some ⟨3, 60000⟩)
    ∧ ((60000 : Nat) ≤ 61000)
    ∧ (0 < ({ windowMs := 60000, max := 3 } : RateLimitOptions).max)
    ∧ ((rateLimitArrive { windowMs := 60000, max := 3 } "1.2.3.4" 61000
          (Store.empty.set "1.2.3.4" ⟨3, 60000⟩)).1
        = .admitted (admitHeaders { windowMs := 60000, max := 3 }
            ⟨0, 61000 + 60000⟩) ⟨0, 61000 + 60000⟩
      ∧ (admitHeaders { windowMs := 60000, max := 3 }
          ⟨0, 61000 + 60000⟩).rateLimitRemaining = some ((3 : Int) - 1)
      ∧ ((rateLimitArrive { windowMs := 60000, max := 3 } "1.2.3.4" 61000
            (Store.empty.set "1.2.3.4" ⟨3, 60000⟩)).2).get "1.2.3.4"
          = some ⟨0, 61000 + 60000⟩) :=
  ⟨rfl, by decide, by decide, by decide,
    C5_expired_window_resets_history { windowMs := 60000, max := 3 } "1.2.3.4"
      61000 (Store.empty.set "1.2.3.4" ⟨3, 60000⟩) 3 60000 rfl (by decide)
      (by decide) (by decide)⟩

/-- C6: requests whose final status triggers a skip flag do not consume
quota: under `skipOnFailure` every request finishing with status ≥ 400 (and
symmetrically under `skipOnSuccess` every 2xx) leaves the key's count
unchanged, each such request is admitted, and a further request inside the
window is still admitted. -/
theorem C6_skip_flags_do_not_consume_quota (opts : RateLimitOptions)
    (key : String) (events : List (Nat × Nat)) (c R : Nat) (s : Store)
    (hs : s.get key = some ⟨c, R⟩) (hc : c < opts.max)
    (hev : ∀ e ∈ events, e.1 < R ∧
        ((opts.skipFailedRequests = true ∧ 400 ≤ e.2) ∨
         (opts.skipSuccessfulRequests = true ∧ 200 ≤ e.2 ∧ e.2 < 300))) :
    (∀ r ∈ (runSeq opts key events s).1,
        r = ReqResult.ok (admitHeaders opts ⟨c, R⟩))
    ∧ ((runSeq opts key events s).2).get key = some ⟨c, R⟩
    ∧ (∀ now', now' < R →
        (rateLimitArrive opts key now' ((runSeq opts key events s).2)).1
          = .admitted (admitHeaders opts ⟨c, R⟩) ⟨c, R⟩) := by
  have hev' : ∀ e ∈ events, e.1 < R ∧ shouldCount opts e.2 = false := by
    intro e he
    obtain ⟨ht, hsk⟩ := hev e he
    refine ⟨ht, ?_⟩
    rcases hsk with ⟨hf, hs4⟩ | ⟨hsu, h2, h3⟩
    · exact shouldCount_false_skipFailed opts e.2 hf hs4
    · exact shouldCount_false_skipSuccessful opts e.2 hsu h2 h3
  obtain ⟨hall, hkey⟩ := runSeq_skipped opts key events c R s hs hc hev'
  refine ⟨hall, hkey, ?_⟩
  intro now' hn
  rw [rateLimitArrive_live_admitted opts key now' _ ⟨c, R⟩ hkey hn hc]

/-- Witness for C6 at the spec's scenario: `{maxRequests 5, skipOnFailure}`,
five requests all finishing with status 500 — none consumes quota and a 6th
request (at 100 ms, inside the window) is still admitted. -/
theorem C6_skip_flags_do_not_consume_quota_witness :
    ((Store.empty.set "1.2.3.4" ⟨0, 900000⟩).get "1.2.3.4" = some ⟨0, 900000⟩)
    ∧ (0 < ({ max := 5, skipFailedRequests := true } : RateLimitOptions).max)
    ∧ (∀ e ∈ [((0 : Nat), (500 : Nat)), (1, 500), (2, 500), (3, 500), (4, 500)],
        e.1 < 900000 ∧
        ((({ max := 5, skipFailedRequests := true } :
              RateLimitOptions).skipFailedRequests = true ∧ 400 ≤ e.2) ∨
         (({ max := 5, skipFailedRequests := true } :
              RateLimitOptions).skipSuccessfulRequests = true
            ∧ 200 ≤ e.2 ∧ e.2 < 300)))
    ∧ ((∀ r ∈ (runSeq { max := 5, skipFailedRequests := true } "1.2.3.4"
          [(0, 500), (1, 500), (2, 500), (3, 500), (4, 500)]
          (Store.empty.set "1.2.3.4" ⟨0, 900000⟩)).1,
        r = ReqResult.ok (admitHeaders { max := 5, skipFailedRequests := true }
            ⟨0, 900000⟩))
      ∧ ((runSeq { max := 5, skipFailedRequests := true } "1.2.3.4"
            [(0, 500), (1, 500), (2, 500), (3, 500), (4, 500)]
            (Store.empty.set "1.2.3.4" ⟨0, 900000⟩)).2).get "1.2.3.4"
          = some ⟨0, 900000⟩
      ∧ (∀ now', now' < 900000 →
          (rateLimitArrive { max := 5, skipFailedRequests := true } "1.2.3.4" now'
            ((runSeq { max := 5, skipFailedRequests := true } "1.2.3.4"
              [(0, 500), (1, 500), (2, 500), (3, 500), (4, 500)]
              (Store.empty.set "1.2.3.4" ⟨0, 900000⟩)).2)).1
            = .admitted (admitHeaders { max := 5, skipFailedRequests := true }
                ⟨0, 900000⟩) ⟨0, 900000⟩)) :=
  ⟨by decide, by decide, by decide,
    C6_skip_flags_do_not_consume_quota { max := 5, skipFailedRequests := true }
      "1.2.3.4" [(0, 500), (1, 500), (2, 500), (3, 500), (4, 500)] 0 900000
      (Store.empty.set "1.2.3.4" ⟨0, 900000⟩) (by decide) (by decide) (by decide)⟩

/-- C7 counterexample: the claim says that when onlyRoutes is non-empty,
membership decides alone (skipRoutes not consulted), and that absent scope
configuration means the stage always applies.  The source's `shouldSkip`
violates both: with onlyRoutes = skipRoutes = ["/api/v1/todos"] and the
route a member of onlyRoutes, the stage is skipped because skipRoutes is
still consulted; and with no scope configured at all (`enabled` absent) the
stage is skipped rather than applied. -/
theorem C7_counterexample_route_matcher :
    shouldSkip ⟨some true, some ["/api/v1/todos"], some ["/api/v1/todos"]⟩
        "/api/v1/todos" = true
    ∧ applies ⟨some true, some ["/api/v1/todos"], some ["/api/v1/todos"]⟩
        "/api/v1/todos" = false
    ∧ applies ⟨none, none, none⟩ "/health" = false :=
  ⟨by decide, by decide, by decide⟩

/-- C7 amended: `shouldSkip` applies the stage iff the route passes the
onlyRoutes filter when one is configured, AND is absent from skipRoutes when
one is configured (skipRoutes is consulted even when onlyRoutes matched),
AND `enabled` is explicitly true (absent scope configuration skips).
Wildcard `/*` matching exists only in the separate JWT skip hook, which
compares the raw request URL by prefix: an entry `/docs/*` matches exactly
the URLs starting with the characters `/docs`. -/
theorem C7_amended_route_matcher (o : MiddlewareOptions) (route : String) :
    (applies o route = true ↔
      ((∀ l, o.onlyRoutes = some l → route ∈ l)
        ∧ (∀ l, o.skipRoutes = some l → route ∉ l)
        ∧ o.enabled = some true))
    ∧ (∀ url, jwtSkipMatch ["/docs/*"] url = jsStartsWith url "/docs") := by
  constructor
  · rcases o with ⟨en, sk, ol⟩
    unfold applies shouldSkip
    cases en <;> cases sk <;> cases ol <;>
      simp [Option.elim]
  · intro url
    simp only [jwtSkipMatch, List.any_cons, List.any_nil, Bool.or_false]
    rw [if_pos (show jsEndsWith "/docs/*" "/*" = true from by decide),
      show jsDropRight "/docs/*" 2 = "/docs" from by decide]

/-- Witness for C7's amended theorem: a scope with onlyRoutes and skipRoutes
both containing the route template "/api/v1/todos" and `enabled := some
true` — the stage does not apply, matching the amended rules; and the JWT
wildcard entry "/docs/*" matches "/docs/guide" by raw-URL prefix. -/
theorem C7_amended_route_matcher_witness :
    (applies ⟨some true, some ["/api/v1/todos"], some ["/api/v1/todos"]⟩
        "/api/v1/todos" = true ↔
      ((∀ l, (some ["/api/v1/todos"] : Option (List String)) = some l →
          "/api/v1/todos" ∈ l)
        ∧ (∀ l, (some ["/api/v1/todos"] : Option (List String)) = some l →
            "/api/v1/todos" ∉ l)
        ∧ (some true : Option Bool) = some true))
    ∧ (∀ url, jwtSkipMatch ["/docs/*"] url = jsStartsWith url "/docs") :=
  C7_amended_route_matcher
    ⟨some true, some ["/api/v1/todos"], some ["/api/v1/todos"]⟩ "/api/v1/todos"

/-- C8 counterexample: two requests for the same fresh key under
maxRequests = 1 that both arrive before either response finishes (the
concurrent interleaving) are BOTH admitted — the claim's "exactly one
admission and one 429" fails, because no counting happens at arrival. -/
theorem C8_counterexample_concurrent_both_admitted :
    (((rateLimitArrive { max := 1 } "1.2.3.4" 0 Store.empty).1).isAdmitted = true)
    ∧ (((rateLimitArrive { max := 1 } "1.2.3.4" 0
          ((rateLimitArrive { max := 1 } "1.2.3.4" 0 Store.empty).2)).1).isAdmitted
        = true) :=
  ⟨by decide, by decide⟩

/-- C8 amended: the counter is not incremented atomically at admission —
counting is deferred to the response-finish hook — so two requests for the
same fresh key that both arrive before either response finishes both
observe the pre-increment count and are both admitted, for every positive
limit; only when the first response finishes (and is counted) before the
second arrival does maxRequests = 1 reject the second request. -/
theorem C8_amended_concurrency_not_atomic (opts : RateLimitOptions)
    (key : String) (tA tB status : Nat) (s : Store)
    (hfresh : s.get key = none) (hm : 0 < opts.max) :
    ((rateLimitArrive opts key tA s).1).isAdmitted = true
    ∧ ((rateLimitArrive opts key tB
          ((rateLimitArrive opts key tA s).2)).1).isAdmitted = true
    ∧ (opts.max = 1 → shouldCount opts status = true →
        tB < tA + opts.windowMs →
        ((rateLimitArrive opts key tB
            ((processRequest opts key tA status s).2)).1).isAdmitted = false) := by
  have h0 : (Store.sweep tA s).get key = none := Store.sweep_get_none tA s key hfresh
  have ha := rateLimitArrive_fresh_admitted opts key tA s h0 hm
  have hs1 : ((rateLimitArrive opts key tA s).2).get key
      = some ⟨0, tA + opts.windowMs⟩ := by
    rw [ha]
    exact Store.get_set_self _ _ _
  refine ⟨by rw [ha]; rfl, ?_, ?_⟩
  · by_cases hlt : tB < tA + opts.windowMs
    · rw [rateLimitArrive_live_admitted opts key tB _ ⟨0, tA + opts.windowMs⟩ hs1 hlt hm]
      rfl
    · have hexp : (Store.sweep tB ((rateLimitArrive opts key tA s).2)).get key = none :=
        Store.sweep_get_expired tB _ key ⟨0, tA + opts.windowMs⟩ hs1
          (show tA + opts.windowMs ≤ tB from by omega)
      rw [rateLimitArrive_fresh_admitted opts key tB _ hexp hm]
      rfl
  · intro hm1 hcount htB
    have hp := processRequest_fresh opts key tA status s h0 hm
    have hs1' : ((processRequest opts key tA status s).2).get key
        = some ⟨1, tA + opts.windowMs⟩ := by
      rw [hp, rateLimitFinish_counted _ _ _ _ _ hcount]
      exact Store.get_set_self _ _ _
    rw [rateLimitArrive_live_reject opts key tB _ ⟨1, tA + opts.windowMs⟩ hs1' htB
      (show opts.max ≤ 1 from by omega)]
    rfl

/-- Witness for C8's amended theorem: maxRequests 1, fresh key, both
arrivals at time 0 (concurrent: neither response finished) — both admitted;
and with the first response finished and counted before a second arrival at
time 1, the second is rejected. -/
theorem C8_amended_concurrency_not_atomic_witness :
    (Store.empty.get "1.2.3.4" = none)
    ∧ (0 < ({ max := 1 } : RateLimitOptions).max)
    ∧ (((rateLimitArrive { max := 1 } "1.2.3.4" 0 Store.empty).1).isAdmitted = true
      ∧ ((rateLimitArrive { max := 1 } "1.2.3.4" 0
            ((rateLimitArrive { max := 1 } "1.2.3.4" 0 Store.empty).2)).1).isAdmitted
          = true
      ∧ (({ max := 1 } : RateLimitOptions).max = 1 →
          shouldCount { max := 1 } 200 = true →
          (1 : Nat) < 0 + ({ max := 1 } : RateLimitOptions).windowMs →
          ((rateLimitArrive { max := 1 } "1.2.3.4" 1
              ((processRequest { max := 1 } "1.2.3.4" 0 200 Store.empty).2)).1).isAdmitted
            = false)) :=
  ⟨rfl, by decide,
    C8_amended_concurrency_not_atomic { max := 1 } "1.2.3.4" 0 1 200 Store.empty
      rfl (by decide)⟩

/-- C9 counterexample: a rejected request does not mutate the key's live
record — under maxRequests 1 with a stored count of 1, the 429 path leaves
the record exactly as it was — contradicting the claim that every processed
request (admitted or rejected) mutates the record. -/
theorem C9_counterexample_rejected_request_no_mutation :
    (((rateLimitArrive { max := 1 } "1.2.3.4" 0
        (Store.empty.set "1.2.3.4" ⟨1, 1000⟩)).1).isAdmitted = false)
    ∧ (((rateLimitArrive { max := 1 } "1.2.3.4" 0
          (Store.empty.set "1.2.3.4" ⟨1, 1000⟩)).2).get "1.2.3.4"
        = some ⟨1, 1000⟩) :=
  ⟨by decide, by decide⟩

/-- C9 amended: the request path never mutates a live record at arrival —
every live record (the request's own included) survives the invocation
unchanged, so in particular a rejected request changes nothing; the only
mutation is the response-finish hook of an admitted request, which
increments the captured record when the skip flags allow counting and
otherwise leaves the store untouched (there is no decrement); the request
path deletes only expired records (the sweep), never a live one. -/
theorem C9_amended_mutation_discipline (opts : RateLimitOptions)
    (key : String) (now status : Nat) (s : Store) :
    (∀ k d, s.get k = some d → now < d.resetTime →
        ((rateLimitArrive opts key now s).2).get k = some d)
    ∧ (shouldCount opts status = false →
        ∀ (s' : Store) (captured : RateLimitData),
          rateLimitFinish opts key captured status s' = s')
    ∧ (shouldCount opts status = true →
        ∀ (s' : Store) (captured : RateLimitData),
          (rateLimitFinish opts key captured status s').get key
            = some ⟨captured.count + 1, captured.resetTime⟩) := by
  refine ⟨?_, ?_, ?_⟩
  · intro k d hk hl
    by_cases hkey : k = key
    · subst hkey
      by_cases hc : d.count < opts.max
      · rw [rateLimitArrive_live_admitted opts k now s d hk hl hc]
        exact Store.sweep_get_live now s k d hk hl
      · rw [rateLimitArrive_live_reject opts k now s d hk hl (by omega)]
        exact Store.sweep_get_live now s k d hk hl
    · rw [rateLimitArrive_get_other opts key now s k hkey]
      exact Store.sweep_get_live now s k d hk hl
  · intro h s' captured
    exact rateLimitFinish_skipped opts key captured status s' h
  · intro h s' captured
    rw [rateLimitFinish_counted opts key captured status s' h]
    exact Store.get_set_self _ _ _

/-- Witness for C9's amended theorem: under the auth preset (skipOnSuccess)
with a 200 status, an arrival for key "b" preserves the live record of key
"a" untouched, and the finish hook is a no-op on any store. -/
theorem C9_amended_mutation_discipline_witness :
    ((Store.empty.set "a" ⟨2, 50⟩).get "a" = some ⟨2, 50⟩)
    ∧ ((10 : Nat) < (⟨2, 50⟩ : RateLimitData).resetTime)
    ∧ (shouldCount authRateLimitOptions 200 = false)
    ∧ (((rateLimitArrive authRateLimitOptions "b" 10
          (Store.empty.set "a" ⟨2, 50⟩)).2).get "a" = some ⟨2, 50⟩)
    ∧ (rateLimitFinish authRateLimitOptions "b" ⟨7, 99⟩ 200 Store.empty
        = Store.empty) :=
  ⟨by decide, by decide, by decide,
    (C9_amended_mutation_discipline authRateLimitOptions "b" 10 200
        (Store.empty.set "a" ⟨2, 50⟩)).1 "a" ⟨2, 50⟩ (by decide) (by decide),
    (C9_amended_mutation_discipline authRateLimitOptions "b" 10 200
        (Store.empty.set "a" ⟨2, 50⟩)).2.1 (by decide) Store.empty ⟨7, 99⟩⟩

/-- C10: all middleware instances share the one module-level counter map,
keyed only by the generated key: a request counted through a p1-instance
writes the record (count 1, window end t0 + p1.windowMs) that a p2-instance
then observes for the same key — p2's own decision is driven by p1's record,
admitted iff 1 < p2.max with p1's window end in its headers — and every
invocation first deletes every expired record of every other key in the
shared map. -/
theorem C10_shared_store_across_instances (p1 p2 : RateLimitOptions)
    (k : String) (t0 t1 status : Nat) (s : Store)
    (hfresh : s.get k = none) (hm : 0 < p1.max)
    (hcount : shouldCount p1 status = true)
    (ht1 : t1 < t0 + p1.windowMs) :
    ((processRequest p1 k t0 status s).2).get k = some ⟨1, t0 + p1.windowMs⟩
    ∧ ((rateLimitArrive p2 k t1 ((processRequest p1 k t0 status s).2)).2).get k
        = some ⟨1, t0 + p1.windowMs⟩
    ∧ (rateLimitArrive p2 k t1 ((processRequest p1 k t0 status s).2)).1
        = (if p2.max ≤ 1 then
            .rejected 429 (rejectHeaders p2 ⟨1, t0 + p1.windowMs⟩
                ((t0 + p1.windowMs - t1 + 999) / 1000))
              ⟨"Too Many Requests", p2.message,
                (t0 + p1.windowMs - t1 + 999) / 1000⟩
          else .admitted (admitHeaders p2 ⟨1, t0 + p1.windowMs⟩)
              ⟨1, t0 + p1.windowMs⟩)
    ∧ (∀ k' d, k' ≠ k → s.get k' = some d → d.resetTime ≤ t0 →
        ((processRequest p1 k t0 status s).2).get k' = none) := by
  have h0 : (Store.sweep t0 s).get k = none := Store.sweep_get_none t0 s k hfresh
  have hp := processRequest_fresh p1 k t0 status s h0 hm
  have hs1 : ((processRequest p1 k t0 status s).2).get k
      = some ⟨1, t0 + p1.windowMs⟩ := by
    rw [hp, rateLimitFinish_counted _ _ _ _ _ hcount]
    exact Store.get_set_self _ _ _
  refine ⟨hs1, ?_, ?_, ?_⟩
  · by_cases hc : (1 : Nat) < p2.max
    · rw [rateLimitArrive_live_admitted p2 k t1 _ ⟨1, t0 + p1.windowMs⟩ hs1 ht1 hc]
      exact Store.sweep_get_live t1 _ k _ hs1 ht1
    · rw [rateLimitArrive_live_reject p2 k t1 _ ⟨1, t0 + p1.windowMs⟩ hs1 ht1
        (show p2.max ≤ 1 from by omega)]
      exact Store.sweep_get_live t1 _ k _ hs1 ht1
  · by_cases hc : p2.max ≤ 1
    · rw [rateLimitArrive_live_reject p2 k t1 _ ⟨1, t0 + p1.windowMs⟩ hs1 ht1 hc,
        if_pos hc]
    · rw [rateLimitArrive_live_admitted p2 k t1 _ ⟨1, t0 + p1.windowMs⟩ hs1 ht1
        (show 1 < p2.max from by omega), if_neg hc]
  · intro k' d hk' hd hexp
    rw [hp, rateLimitFinish_counted _ _ _ _ _ hcount,
      Store.get_set_ne _ _ _ _ hk', Store.get_set_ne _ _ _ _ hk']
    exact Store.sweep_get_expired t0 s k' d hd hexp

/-- Witness for C10: the default preset counts a request for "1.2.3.4" at
t = 5; the strict preset then observes count 1 and the default preset's
window end for that key at t = 10, and the expired record of key "stale"
was deleted by the invocation. -/
theorem C10_shared_store_across_instances_witness :
    ((Store.empty.set "stale" ⟨9, 3⟩).get "1.2.3.4" = none)
    ∧ (0 < defaultRateLimitOptions.max)
    ∧ (shouldCount defaultRateLimitOptions 200 = true)
    ∧ ((10 : Nat) < 5 + defaultRateLimitOptions.windowMs)
    ∧ (((processRequest defaultRateLimitOptions "1.2.3.4" 5 200
          (Store.empty.set "stale" ⟨9, 3⟩)).2).get "1.2.3.4"
        = some ⟨1, 5 + defaultRateLimitOptions.windowMs⟩
      ∧ ((rateLimitArrive strictRateLimitOptions "1.2.3.4" 10
            ((processRequest defaultRateLimitOptions "1.2.3.4" 5 200
              (Store.empty.set "stale" ⟨9, 3⟩)).2)).2).get "1.2.3.4"
          = some ⟨1, 5 + defaultRateLimitOptions.windowMs⟩
      ∧ (rateLimitArrive strictRateLimitOptions "1.2.3.4" 10
            ((processRequest defaultRateLimitOptions "1.2.3.4" 5 200
              (Store.empty.set "stale" ⟨9, 3⟩)).2)).1
          = (if strictRateLimitOptions.max ≤ 1 then
              .rejected 429 (rejectHeaders strictRateLimitOptions
                  ⟨1, 5 + defaultRateLimitOptions.windowMs⟩
                  ((5 + defaultRateLimitOptions.windowMs - 10 + 999) / 1000))
                ⟨"Too Many Requests", strictRateLimitOptions.message,
                  (5 + defaultRateLimitOptions.windowMs - 10 + 999) / 1000⟩
            else .admitted (admitHeaders strictRateLimitOptions
                  ⟨1, 5 + defaultRateLimitOptions.windowMs⟩)
                ⟨1, 5 + defaultRateLimitOptions.windowMs⟩)
      ∧ (∀ k' d, k' ≠ "1.2.3.4" →
          (Store.empty.set "stale" ⟨9, 3⟩).get k' = some d → d.resetTime ≤ 5 →
          ((processRequest defaultRateLimitOptions "1.2.3.4" 5 200
              (Store.empty.set "stale" ⟨9, 3⟩)).2).get k' = none))
    ∧ (((processRequest defaultRateLimitOptions "1.2.3.4" 5 200
          (Store.empty.set "stale" ⟨9, 3⟩)).2).get "stale" = none) :=
  ⟨by decide, by decide, by decide, by decide,
    C10_shared_store_across_instances defaultRateLimitOptions
      strictRateLimitOptions "1.2.3.4" 5 10 200
      (Store.empty.set "stale" ⟨9, 3⟩) (by decide) (by decide) (by decide)
      (by decide),
    (C10_shared_store_across_instances defaultRateLimitOptions
      strictRateLimitOptions "1.2.3.4" 5 10 200
      (Store.empty.set "stale" ⟨9, 3⟩) (by decide) (by decide) (by decide)
      (by decide)).2.2.2 "stale" ⟨9, 3⟩ (by decide) (by decide) (by decide)⟩

end FastifyApi
